import Mathlib

/-!
Verification of the aider version-check and voice-capture utilities
(src/aider/versioncheck.py and src/aider/voice.py), shallowly embedded.

Python exceptions are modelled by an explicit error type; fallible
functions return Except.  Network and filesystem effects are modelled by
passing the environment's outcome as an explicit argument.
-/

/-- Exception kinds raised by the embedded code.  runtimeError models
Python's RuntimeError (the spec's NetworkError), valueError models
ValueError (the spec's InvalidVersionError), keyError models KeyError,
soundDeviceError models the repository's SoundDeviceError class, and
keyboardInterrupt models KeyboardInterrupt. -/
inductive PyError where
  | runtimeError (msg : String)
  | valueError (msg : String)
  | keyError (key : String)
  | soundDeviceError (msg : String)
  | keyboardInterrupt
  deriving DecidableEq, Repr

namespace VersionCheck

/-- Split a character list at every dot, keeping empty pieces, with acc
holding the current piece reversed. -/
def splitOnDotAux (acc : List Char) : List Char → List (List Char)
  | [] => [acc.reverse]
  | c :: cs =>
      if c = '.' then acc.reverse :: splitOnDotAux [] cs
      else splitOnDotAux (c :: acc) cs

/-- Dot-separated pieces of a string, as character lists. -/
def splitOnDot (s : String) : List (List Char) :=
  splitOnDotAux [] s.data

/-- Parse one version component: a nonempty run of decimal digits; none
when the piece is empty or holds a non-digit. -/
def parseNumPart (s : List Char) : Option Nat :=
  if s ≠ [] ∧ s.all Char.isDigit = true then
    some (s.foldl (fun acc c => acc * 10 + (c.toNat - 48)) 0)
  else none

/-- Modelled external library (packaging.version.parse), following the
spec's version grammar: dot-separated numeric components.  Returns none
exactly when the string is malformed. -/
def parseVersionCore (s : String) : Option (List Nat) :=
  (splitOnDot s).mapM parseNumPart

/-- Pad a component list with trailing zeros up to length n. -/
def padZeros (v : List Nat) (n : Nat) : List Nat :=
  v ++ List.replicate (n - v.length) 0

/-- Lexicographic strictly-greater test on equal-length component lists. -/
def lexGtNat : List Nat → List Nat → Bool
  | [], _ => false
  | _ :: _, [] => true
  | x :: xs, y :: ys => decide (y < x) || (decide (x = y) && lexGtNat xs ys)

/-- Component-wise semantic-version strict order: pad with zeros to a
common length, then compare components left to right. -/
def versionGt (a b : List Nat) : Bool :=
  lexGtNat (padZeros a (max a.length b.length)) (padZeros b (max a.length b.length))

/-- Embedding of parse_version: wraps the library parse, converting a
parse failure into ValueError (the spec's InvalidVersionError). -/
def parse_version (s : String) : Except PyError (List Nat) :=
  match parseVersionCore s with
  | some v => Except.ok v
  | none => Except.error (PyError.valueError ("Invalid version string: " ++ s))

/-- Embedding of is_update_available: parses both strings and compares. -/
def is_update_available (latest_version current_version : String) :
    Except PyError Bool := do
  let vl ← parse_version latest_version
  let vc ← parse_version current_version
  pure (versionGt vl vc)

/-- Substring test on character lists, modelling Python's in operator. -/
def containsSub (needle : List Char) : List Char → Bool
  | [] => needle.isPrefixOf []
  | c :: cs => needle.isPrefixOf (c :: cs) || containsSub needle cs

/-- Embedding of construct_upgrade_command; the running executable path
(sys.executable in the source) is passed explicitly. -/
def construct_upgrade_command (py : String) : String :=
  if containsSub "pipx".data py.data then "pipx upgrade aider-chat"
  else py ++ " -m pip install --upgrade aider-chat"

/-- Outcome of the HTTP GET to the registry, passed as an explicit
environment: either the request raised requests.RequestException, or a
response arrived with a status code and with the value of the body's
info.version field when the field is present. -/
inductive NetOutcome where
  | requestException (msg : String)
  | response (status : Nat) (infoVersion : Option String)
  deriving DecidableEq, Repr

/-- Status codes for which response.raise_for_status raises HTTPError
(a requests.RequestException): the 4xx and 5xx ranges. -/
def badStatus (status : Nat) : Bool :=
  decide (400 ≤ status) && decide (status < 600)

/-- Embedding of fetch_latest_version.  The try block catches only
requests.RequestException; indexing a body that lacks the info.version
field raises KeyError, which the except clause does not catch. -/
def fetch_latest_version (net : NetOutcome) : Except PyError String :=
  match net with
  | NetOutcome.requestException msg =>
      Except.error (PyError.runtimeError ("Error fetching version from PyPI: " ++ msg))
  | NetOutcome.response status info =>
      if badStatus status then
        Except.error (PyError.runtimeError ("Error fetching version from PyPI: HTTP " ++ toString status))
      else
        match info with
        | none => Except.error (PyError.keyError "info")
        | some v => Except.ok v

/-- Embedding of print_update_instructions: the single message passed to
the print_cmd callback (two lines joined by a newline). -/
def print_update_instructions (latest_version py : String) : String :=
  "Newer version v" ++ latest_version ++ " is available. To upgrade, run:\n"
    ++ construct_upgrade_command py

/-- Body of the try block of check_for_updates: fetch, compare, and on an
available update emit the upgrade instructions.  Returns the boolean
result together with the messages passed to print_cmd. -/
def checkBody (net : NetOutcome) (current_version py : String) :
    Except PyError (Bool × List String) := do
  let latest ← fetch_latest_version net
  let avail ← is_update_available latest current_version
  if avail then pure (true, [print_update_instructions latest py])
  else pure (false, [])

/-- Message carried by an exception, as str(err) renders it. -/
def errStr : PyError → String
  | PyError.runtimeError m => m
  | PyError.valueError m => m
  | PyError.keyError k => "KeyError: " ++ k
  | PyError.soundDeviceError m => m
  | PyError.keyboardInterrupt => "KeyboardInterrupt"

/-- Embedding of check_for_updates.  The except clause catches exactly
RuntimeError and ValueError, reports the message via print_cmd and
returns false; any other exception propagates.  The result pairs the
returned value (or propagated exception) with the list of messages
passed to print_cmd, in order. -/
def check_for_updates (net : NetOutcome) (current_version py : String) :
    Except PyError Bool × List String :=
  match checkBody net current_version py with
  | Except.ok (b, msgs) => (Except.ok b, msgs)
  | Except.error (PyError.runtimeError m) => (Except.ok false, [errStr (PyError.runtimeError m)])
  | Except.error (PyError.valueError m) => (Except.ok false, [errStr (PyError.valueError m)])
  | Except.error e => (Except.error e, [])

end VersionCheck

namespace Voice

/-- Audio samples of one captured block, as exact rationals (the float
amplitudes of the source are modelled by ℚ). -/
abbrev Block := List ℚ

/-- Mutable state of a Voice instance that the recording callback reads
and writes: running extremes of the block RMS amplitude, the normalized
level pct, and the sample queue in arrival order. -/
structure VoiceState where
  max_rms : ℚ
  min_rms : ℚ
  pct : ℚ
  q : List Block
  deriving DecidableEq, Repr

/-- State set by Voice.__init__: max_rms = 0, min_rms = 1e5, pct = 0,
empty queue. -/
def initialVoiceState : VoiceState :=
  { max_rms := 0, min_rms := 100000, pct := 0, q := [] }

/-- Epsilon of the callback's range guard (the literal 0.001). -/
def rngEpsilon : ℚ := 1 / 1000

/-- Embedding of Voice.callback for one audio block.  The block's
root-mean-square amplitude rms (np.sqrt of the mean square, an
irrational quantity) is passed as an explicit argument; everything after
its computation follows the source: update the running max and min,
derive pct from the updated range when it exceeds 0.001 and otherwise
set the neutral 0.5, then append a copy of the block to the queue. -/
def callbackUpdate (st : VoiceState) (rms : ℚ) (indata : Block) : VoiceState :=
  let max1 := max st.max_rms rms
  let min1 := min st.min_rms rms
  let rng := max1 - min1
  let pct1 := if rng > rngEpsilon then (rms - min1) / rng else 1 / 2
  { max_rms := max1, min_rms := min1, pct := pct1, q := st.q ++ [indata] }

/-- Threshold set by Voice.__init__ (the literal 0.15). -/
def threshold : ℚ := 15 / 100

/-- Python's int() on a nonnegative rational: truncation toward zero,
which for nonnegative arguments equals the floor. -/
def pyIntNonneg (q : ℚ) : ℕ :=
  q.num.toNat / q.den

/-- Count of light-shade segments in get_prompt's bar: int(pct * 10)
when pct is at least the threshold (the NaN test of the source cannot
fire in the exact-rational model), else 0.  The guarded branch only runs
with pct ≥ 0.15 > 0, where int() is the floor. -/
def barCnt (pct : ℚ) : ℕ :=
  if threshold ≤ pct then pyIntNonneg (pct * 10) else 0

/-- Light-shade character used for the first cnt segments of the bar. -/
def lightShade : Char := '░'

/-- Full-block character used for the remaining segments of the bar. -/
def fullBlock : Char := '█'

/-- Bar of get_prompt: cnt light-shade characters, then num - cnt
full-block characters (clamped at zero as in Python string repetition),
truncated to the first num = 10 characters. -/
def bar (pct : ℚ) : List Char :=
  (List.replicate (barCnt pct) lightShade
    ++ List.replicate (10 - barCnt pct) fullBlock).take 10

/-- WAV file produced by soundfile, as its header parameters plus the
sample frames written to it in order. -/
structure WavFile where
  samplerate : ℕ
  channels : ℕ
  frames : List ℚ
  deriving DecidableEq, Repr

/-- Embedding of Voice._write_audio_to_file.  fsError carries a
filesystem failure of the underlying soundfile operations when one
occurs; the except clause wraps any such failure in SoundDeviceError.
Otherwise the loop drains the queue in arrival order into a fresh
single-channel 16 kHz file, succeeding also on an empty queue. -/
def write_audio_to_file (fsError : Option String) (q : List Block) :
    Except PyError WavFile :=
  match fsError with
  | some msg => Except.error (PyError.soundDeviceError ("Error writing audio to file: " ++ msg))
  | none => Except.ok { samplerate := 16000, channels := 1, frames := q.flatten }

/-- Embedding of Voice._transcribe_audio: the outcome of the litellm
transcription call is passed explicitly; any failure is wrapped in
SoundDeviceError. -/
def transcribe_audio (outcome : Except String String) : Except PyError String :=
  match outcome with
  | Except.error e => Except.error (PyError.soundDeviceError ("Error during transcription: " ++ e))
  | Except.ok text => Except.ok text

/-- Embedding of Voice._initialize_sound_device: sfAvailable tells
whether the soundfile import succeeded at module load; sdImport is the
outcome of importing sounddevice.  Either failure is raised as
SoundDeviceError. -/
def initialize_sound_device (sfAvailable : Bool) (sdImport : Except String Unit) :
    Except PyError Unit :=
  if sfAvailable = false then
    Except.error (PyError.soundDeviceError "Soundfile library is not available.")
  else
    match sdImport with
    | Except.error e =>
        Except.error (PyError.soundDeviceError ("Failed to initialize sound device: " ++ e))
    | Except.ok _ => Except.ok ()

/-- Environment of one record-and-transcribe run: whether the user
interrupts during recording or the wait for ENTER, the blocks captured
before the stream closes, the filesystem outcome of the WAV write, and
the outcome of the transcription call. -/
structure RecordEnv where
  interrupted : Bool
  blocks : List Block
  fsError : Option String
  transcription : Except String String
  deriving Repr

/-- Embedding of Voice.raw_record_and_transcribe: record until the user
signal (an interrupt during the stream or the wait raises
KeyboardInterrupt before any file is written), then write the WAV file
and transcribe it.  The second component is the file written, none when
no file was created. -/
def raw_record_and_transcribe (env : RecordEnv) :
    Except PyError String × Option WavFile :=
  if env.interrupted then (Except.error PyError.keyboardInterrupt, none)
  else
    match write_audio_to_file env.fsError env.blocks with
    | Except.error e => (Except.error e, none)
    | Except.ok wav =>
        match transcribe_audio env.transcription with
        | Except.error e => (Except.error e, some wav)
        | Except.ok text => (Except.ok text, some wav)

/-- Embedding of Voice.record_and_transcribe: delegates to the raw
routine and converts a KeyboardInterrupt into a normal return of None;
every other exception propagates. -/
def record_and_transcribe (env : RecordEnv) :
    Except PyError (Option String) × Option WavFile :=
  match raw_record_and_transcribe env with
  | (Except.error PyError.keyboardInterrupt, f) => (Except.ok none, f)
  | (Except.error e, f) => (Except.error e, f)
  | (Except.ok text, f) => (Except.ok (some text), f)

end Voice

/-- Classifier used to state C2: whether a result is a raised
RuntimeError (the kind the spec calls NetworkError). -/
def isNetworkError {α : Type} : Except PyError α → Bool
  | Except.error (PyError.runtimeError _) => true
  | _ => false

open VersionCheck Voice

/-- Helper: Python's int() of a nonnegative rational, cast to ℤ, is its
floor. -/
theorem pyIntNonneg_eq_floor (q : ℚ) (h : 0 ≤ q) : (pyIntNonneg q : ℤ) = ⌊q⌋ := by
  rw [Rat.floor_def, pyIntNonneg]
  have hnum : 0 ≤ q.num := Rat.num_nonneg.mpr h
  rw [← Int.toNat_of_nonneg hnum]
  exact Int.natCast_div _ _

/-- Helper: Python's int() of a nonnegative rational as a natural
number. -/
theorem pyIntNonneg_eq_floor_toNat (q : ℚ) (h : 0 ≤ q) : pyIntNonneg q = (⌊q⌋).toNat := by
  have := pyIntNonneg_eq_floor q h
  omega

/-- Helper: at pct equal to the threshold 0.15 the bar count is already
1 (int(0.15 * 10) = 1). -/
theorem barCnt_at_threshold : Voice.barCnt Voice.threshold = 1 := by
  rw [Voice.barCnt, if_pos le_rfl,
    pyIntNonneg_eq_floor_toNat _ (by norm_num [Voice.threshold])]
  have hf : ⌊(Voice.threshold * 10 : ℚ)⌋ = 1 := by
    rw [Int.floor_eq_iff]
    norm_num [Voice.threshold]
  rw [hf]
  rfl

/-- C1: for every pair of version strings that both parse,
is_update_available returns ok true exactly when the latest version is
strictly greater than the current one under component-wise version
ordering, and ok false when it is equal or lesser. -/
theorem is_update_available_iff_versionGt (l c : String) (vl vc : List Nat)
    (hl : parseVersionCore l = some vl) (hc : parseVersionCore c = some vc) :
    (is_update_available l c = Except.ok true ↔ versionGt vl vc = true)
    ∧ (versionGt vl vc = false → is_update_available l c = Except.ok false) := by
  have h : is_update_available l c = Except.ok (versionGt vl vc) := by
    simp [is_update_available, parse_version, hl, hc, Bind.bind, Except.bind, pure, Except.pure]
  constructor
  · rw [h]; simp
  · intro hf; rw [h, hf]

/-- Witness for C1 at the concrete pair 1.2.3 over 1.2.2. -/
theorem is_update_available_iff_versionGt_witness :
    parseVersionCore "1.2.3" = some [1, 2, 3]
    ∧ parseVersionCore "1.2.2" = some [1, 2, 2]
    ∧ ((is_update_available "1.2.3" "1.2.2" = Except.ok true
          ↔ versionGt [1, 2, 3] [1, 2, 2] = true)
        ∧ (versionGt [1, 2, 3] [1, 2, 2] = false →
            is_update_available "1.2.3" "1.2.2" = Except.ok false)) :=
  ⟨by decide, by decide,
    is_update_available_iff_versionGt "1.2.3" "1.2.2" [1, 2, 3] [1, 2, 2]
      (by decide) (by decide)⟩

/-- C2 counterexample: a success response whose body lacks the
info.version field makes fetch_latest_version raise KeyError, which is
not the NetworkError (RuntimeError) the claim requires. -/
theorem fetch_latest_version_missing_field_keyError :
    fetch_latest_version (NetOutcome.response 200 none)
      = Except.error (PyError.keyError "info")
    ∧ isNetworkError (fetch_latest_version (NetOutcome.response 200 none)) = false :=
  ⟨rfl, rfl⟩

/-- C2 amended: fetch_latest_version fails with NetworkError
(RuntimeError) in exactly two cases, a request exception and a bad
status; a body lacking the version field raises a KeyError instead; and
otherwise it returns the version string of the body. -/
theorem fetch_latest_version_cases :
    (∀ msg, fetch_latest_version (NetOutcome.requestException msg)
        = Except.error (PyError.runtimeError ("Error fetching version from PyPI: " ++ msg)))
    ∧ (∀ status info, badStatus status = true →
        fetch_latest_version (NetOutcome.response status info)
          = Except.error (PyError.runtimeError
              ("Error fetching version from PyPI: HTTP " ++ toString status)))
    ∧ (∀ status, badStatus status = false →
        fetch_latest_version (NetOutcome.response status none)
          = Except.error (PyError.keyError "info"))
    ∧ (∀ status v, badStatus status = false →
        fetch_latest_version (NetOutcome.response status (some v)) = Except.ok v) := by
  refine ⟨fun msg => rfl, ?_, ?_, ?_⟩ <;> intros <;> simp [fetch_latest_version, *]

/-- Witness for C2 amended at a 404 response and at a successful
response. -/
theorem fetch_latest_version_cases_witness :
    badStatus 404 = true
    ∧ fetch_latest_version (NetOutcome.response 404 (some "1.0"))
        = Except.error (PyError.runtimeError "Error fetching version from PyPI: HTTP 404")
    ∧ badStatus 200 = false
    ∧ fetch_latest_version (NetOutcome.response 200 (some "1.0")) = Except.ok "1.0" :=
  ⟨rfl, ((fetch_latest_version_cases.2.1 404 (some "1.0") rfl).trans (by rfl)),
    rfl, fetch_latest_version_cases.2.2.2 200 "1.0" rfl⟩

/-- C3 counterexample: when the registry response lacks the version
field, check_for_updates neither reports nor returns false; the KeyError
propagates out of it. -/
theorem check_for_updates_keyError_propagates :
    check_for_updates (NetOutcome.response 200 none) "1.0" "/usr/bin/python3"
      = (Except.error (PyError.keyError "info"), []) := rfl

/-- C3 amended: check_for_updates never propagates RuntimeError
(NetworkError) or ValueError (InvalidVersionError); on either it reports
the message exactly once and returns false; when the fetched version
exceeds the current one it reports the two-line upgrade instructions
once and returns true; when the fetch succeeds and no update is
available it reports nothing and returns false; but a KeyError from a
body lacking the version field propagates with nothing reported. -/
theorem check_for_updates_cases (net : NetOutcome) (cur py : String) :
    (∀ m, (check_for_updates net cur py).1 ≠ Except.error (PyError.runtimeError m)
        ∧ (check_for_updates net cur py).1 ≠ Except.error (PyError.valueError m))
    ∧ (∀ m, checkBody net cur py = Except.error (PyError.runtimeError m) →
        check_for_updates net cur py = (Except.ok false, [m]))
    ∧ (∀ m, checkBody net cur py = Except.error (PyError.valueError m) →
        check_for_updates net cur py = (Except.ok false, [m]))
    ∧ (∀ latest, fetch_latest_version net = Except.ok latest →
        is_update_available latest cur = Except.ok true →
        check_for_updates net cur py = (Except.ok true, [print_update_instructions latest py]))
    ∧ (∀ latest, fetch_latest_version net = Except.ok latest →
        is_update_available latest cur = Except.ok false →
        check_for_updates net cur py = (Except.ok false, []))
    ∧ (∀ k, checkBody net cur py = Except.error (PyError.keyError k) →
        check_for_updates net cur py = (Except.error (PyError.keyError k), [])) := by
  refine ⟨?_, ?_, ?_, ?_, ?_, ?_⟩
  · intro m
    cases h : checkBody net cur py with
    | ok v =>
        obtain ⟨b, msgs⟩ := v
        simp [check_for_updates, h]
    | error e => cases e <;> simp [check_for_updates, h]
  · intro m h; simp [check_for_updates, h, errStr]
  · intro m h; simp [check_for_updates, h, errStr]
  · intro latest hf hu
    have hb : checkBody net cur py
        = Except.ok (true, [print_update_instructions latest py]) := by
      simp [checkBody, hf, hu, Bind.bind, Except.bind, pure, Except.pure]
    simp [check_for_updates, hb]
  · intro latest hf hu
    have hb : checkBody net cur py = Except.ok (false, []) := by
      simp [checkBody, hf, hu, Bind.bind, Except.bind, pure, Except.pure]
    simp [check_for_updates, hb]
  · intro k h; simp [check_for_updates, h]

/-- Witness for C3 amended: a failed request is reported once and the
call returns false. -/
theorem check_for_updates_cases_witness :
    checkBody (NetOutcome.requestException "boom") "1.0" "/usr/bin/python3"
      = Except.error (PyError.runtimeError "Error fetching version from PyPI: boom")
    ∧ check_for_updates (NetOutcome.requestException "boom") "1.0" "/usr/bin/python3"
      = (Except.ok false, ["Error fetching version from PyPI: boom"]) :=
  ⟨rfl, (check_for_updates_cases (NetOutcome.requestException "boom") "1.0" "/usr/bin/python3").2.1
    "Error fetching version from PyPI: boom" rfl⟩

/-- C4: construct_upgrade_command returns the pipx command exactly when
the executable path contains the substring pipx, and the direct pip
command referencing the executable otherwise; in particular at the two
concrete paths of the claim. -/
theorem construct_upgrade_command_spec :
    (∀ py : String,
      (containsSub "pipx".data py.data = true →
        construct_upgrade_command py = "pipx upgrade aider-chat")
      ∧ (containsSub "pipx".data py.data = false →
        construct_upgrade_command py = py ++ " -m pip install --upgrade aider-chat"))
    ∧ construct_upgrade_command "/home/u/.local/pipx/venvs/aider/bin/python"
        = "pipx upgrade aider-chat"
    ∧ construct_upgrade_command "/usr/bin/python3"
        = "/usr/bin/python3 -m pip install --upgrade aider-chat" := by
  refine ⟨fun py => ⟨fun h => ?_, fun h => ?_⟩, rfl, rfl⟩
  · simp [construct_upgrade_command, h]
  · simp [construct_upgrade_command, h]

/-- Witness for C4 applying the universal part at a concrete path
without the marker. -/
theorem construct_upgrade_command_spec_witness :
    containsSub "pipx".data "/opt/python".data = false
    ∧ construct_upgrade_command "/opt/python"
        = "/opt/python" ++ " -m pip install --upgrade aider-chat" :=
  ⟨rfl, (construct_upgrade_command_spec.1 "/opt/python").2 rfl⟩

/-- C5: the per-block level computation is total; whenever the updated
running amplitude range (max minus min) does not exceed the epsilon
0.001, pct is set to the fixed neutral 1/2 (no division is attempted),
and the block is still appended to the queue, so capture continues. -/
theorem callback_neutral_pct_on_small_range (st : VoiceState) (rms : ℚ) (indata : Block)
    (h : (callbackUpdate st rms indata).max_rms
        - (callbackUpdate st rms indata).min_rms ≤ rngEpsilon) :
    (callbackUpdate st rms indata).pct = 1 / 2
    ∧ (callbackUpdate st rms indata).q = st.q ++ [indata] := by
  simp only [callbackUpdate] at h ⊢
  refine ⟨?_, trivial⟩
  rw [if_neg (not_lt.mpr h)]

/-- Witness for C5 at the initial state with a silent block: the running
min and max both resolve to 0 and pct resolves to 1/2. -/
theorem callback_neutral_pct_on_small_range_witness :
    ((callbackUpdate initialVoiceState 0 []).max_rms
        - (callbackUpdate initialVoiceState 0 []).min_rms ≤ rngEpsilon)
    ∧ (callbackUpdate initialVoiceState 0 []).max_rms = 0
    ∧ (callbackUpdate initialVoiceState 0 []).min_rms = 0
    ∧ ((callbackUpdate initialVoiceState 0 []).pct = 1 / 2
        ∧ (callbackUpdate initialVoiceState 0 []).q = initialVoiceState.q ++ [[]]) :=
  ⟨by simp [callbackUpdate, initialVoiceState, rngEpsilon],
   by simp [callbackUpdate, initialVoiceState],
   by simp [callbackUpdate, initialVoiceState],
   callback_neutral_pct_on_small_range initialVoiceState 0 []
     (by simp [callbackUpdate, initialVoiceState, rngEpsilon])⟩

/-- C6 counterexample: at pct exactly 0.15 the threshold is not
exceeded, yet the bar is not empty: it shows one filled segment. -/
theorem bar_reflects_pct_at_threshold :
    ¬ Voice.threshold < Voice.threshold
    ∧ Voice.barCnt Voice.threshold = 1
    ∧ Voice.bar Voice.threshold ≠ List.replicate 10 Voice.fullBlock := by
  refine ⟨lt_irrefl _, barCnt_at_threshold, ?_⟩
  rw [Voice.bar, barCnt_at_threshold]
  decide

/-- C6 amended: the bar always has exactly 10 segments; for pct strictly
below the threshold 0.15 it is empty; and once pct reaches the threshold
(greater than or equal, not strictly greater) the filled-segment count
is the floor of pct times 10, which for pct at most 1 fits in the bar
without truncation. -/
theorem bar_spec :
    (∀ pct : ℚ, (bar pct).length = 10)
    ∧ (∀ pct : ℚ, pct < threshold → bar pct = List.replicate 10 fullBlock)
    ∧ (∀ pct : ℚ, threshold ≤ pct → pct ≤ 1 →
        (barCnt pct : ℤ) = ⌊pct * 10⌋ ∧ barCnt pct ≤ 10
        ∧ bar pct = List.replicate (barCnt pct) lightShade
            ++ List.replicate (10 - barCnt pct) fullBlock) := by
  refine ⟨?_, ?_, ?_⟩
  · intro pct
    simp [bar, List.length_take]
    omega
  · intro pct h
    simp [bar, barCnt, not_le.mpr h]
  · intro pct h1 h2
    have hpos : (0:ℚ) ≤ pct * 10 := by
      have : (0:ℚ) ≤ pct := le_trans (by norm_num [threshold]) h1
      linarith
    have hcnt : barCnt pct = pyIntNonneg (pct * 10) := by rw [barCnt, if_pos h1]
    have hfloor : (barCnt pct : ℤ) = ⌊pct * 10⌋ := by
      rw [hcnt]
      exact pyIntNonneg_eq_floor _ hpos
    have h10 : ⌊pct * 10⌋ ≤ 10 := by
      calc ⌊pct * 10⌋ ≤ ⌊(10:ℚ)⌋ := Int.floor_le_floor (by linarith)
        _ = 10 := by norm_num
    have hle : barCnt pct ≤ 10 := by
      have hz : (barCnt pct : ℤ) ≤ 10 := hfloor ▸ h10
      exact_mod_cast hz
    refine ⟨hfloor, hle, ?_⟩
    unfold bar
    rw [List.take_of_length_le]
    simp
    omega

/-- Witness for C6 amended at pct equal to one half: five filled
segments out of ten. -/
theorem bar_spec_witness :
    Voice.threshold ≤ (1:ℚ)/2 ∧ (1:ℚ)/2 ≤ 1
    ∧ ((Voice.barCnt (1/2) : ℤ) = ⌊((1:ℚ)/2) * 10⌋ ∧ Voice.barCnt (1/2) ≤ 10
        ∧ Voice.bar (1/2) = List.replicate (Voice.barCnt (1/2)) Voice.lightShade
            ++ List.replicate (10 - Voice.barCnt (1/2)) Voice.fullBlock) :=
  ⟨by norm_num [Voice.threshold], by norm_num,
    bar_spec.2.2 (1/2) (by norm_num [Voice.threshold]) (by norm_num)⟩

/-- C7: a malformed version string makes is_update_available fail with
ValueError (InvalidVersionError), whether passed as the latest or as the
current argument. -/
theorem is_update_available_invalid_version_error (bad other : String)
    (h : parseVersionCore bad = none) :
    (∃ m, is_update_available bad other = Except.error (PyError.valueError m))
    ∧ (∃ m, is_update_available other bad = Except.error (PyError.valueError m)) := by
  constructor
  · exact ⟨"Invalid version string: " ++ bad,
      by simp [is_update_available, parse_version, h, Bind.bind, Except.bind]⟩
  · cases ho : parseVersionCore other with
    | none =>
        exact ⟨"Invalid version string: " ++ other,
          by simp [is_update_available, parse_version, ho, Bind.bind, Except.bind]⟩
    | some v =>
        exact ⟨"Invalid version string: " ++ bad,
          by simp [is_update_available, parse_version, ho, h, Bind.bind, Except.bind,
            pure, Except.pure]⟩

/-- Witness for C7 at the malformed string abc against 1.0. -/
theorem is_update_available_invalid_version_error_witness :
    parseVersionCore "abc" = none
    ∧ ((∃ m, is_update_available "abc" "1.0" = Except.error (PyError.valueError m))
        ∧ (∃ m, is_update_available "1.0" "abc" = Except.error (PyError.valueError m))) :=
  ⟨by decide, is_update_available_invalid_version_error "abc" "1.0" (by decide)⟩

/-- C8: with no filesystem failure, _write_audio_to_file succeeds on an
empty queue, producing a single-channel 16 kHz file with no frames, and
on any queue serializes all blocks in arrival order. -/
theorem write_audio_to_file_spec :
    write_audio_to_file none [] = Except.ok { samplerate := 16000, channels := 1, frames := [] }
    ∧ (∀ q : List Block, write_audio_to_file none q
        = Except.ok { samplerate := 16000, channels := 1, frames := q.flatten }) :=
  ⟨rfl, fun _ => rfl⟩

/-- Witness for C8 at a concrete two-block queue. -/
theorem write_audio_to_file_spec_witness :
    write_audio_to_file none [[1, 2], [3]]
      = Except.ok { samplerate := 16000, channels := 1, frames := [1, 2, 3] } :=
  write_audio_to_file_spec.2 [[1, 2], [3]]

/-- C9: an interrupt during recording or the wait for the stop signal
makes record_and_transcribe return None with no exception and with no
file written, whatever audio was buffered. -/
theorem record_and_transcribe_interrupt_returns_none (env : RecordEnv)
    (h : env.interrupted = true) :
    record_and_transcribe env = (Except.ok none, none) := by
  simp [record_and_transcribe, raw_record_and_transcribe, h]

/-- Witness for C9 at an interrupted session holding one buffered
block. -/
theorem record_and_transcribe_interrupt_returns_none_witness :
    ((⟨true, [[1]], none, Except.ok "hello"⟩ : RecordEnv)).interrupted = true
    ∧ record_and_transcribe (⟨true, [[1]], none, Except.ok "hello"⟩ : RecordEnv)
        = (Except.ok none, none) :=
  ⟨rfl, record_and_transcribe_interrupt_returns_none
    (⟨true, [[1]], none, Except.ok "hello"⟩ : RecordEnv) rfl⟩

/-- C10: every failure of the voice component is a SoundDeviceError:
initialization failures, WAV write failures, and transcription failures
each raise only that exception type. -/
theorem voice_failures_are_sound_device_errors :
    (∀ (sfA : Bool) (sdI : Except String Unit) (e : PyError),
        initialize_sound_device sfA sdI = Except.error e →
        ∃ m, e = PyError.soundDeviceError m)
    ∧ (∀ (fsE : Option String) (q : List Block) (e : PyError),
        write_audio_to_file fsE q = Except.error e →
        ∃ m, e = PyError.soundDeviceError m)
    ∧ (∀ (out : Except String String) (e : PyError),
        transcribe_audio out = Except.error e →
        ∃ m, e = PyError.soundDeviceError m) := by
  refine ⟨?_, ?_, ?_⟩
  · intro sfA sdI e h
    cases sfA <;> cases sdI <;> simp [initialize_sound_device] at h <;> exact ⟨_, h.symm⟩
  · intro fsE q e h
    cases fsE <;> simp [write_audio_to_file] at h <;> exact ⟨_, h.symm⟩
  · intro out e h
    cases out <;> simp [transcribe_audio] at h <;> exact ⟨_, h.symm⟩

/-- Witness for C10 at a missing soundfile library. -/
theorem voice_failures_are_sound_device_errors_witness :
    initialize_sound_device false (Except.ok ())
      = Except.error (PyError.soundDeviceError "Soundfile library is not available.")
    ∧ ∃ m, PyError.soundDeviceError "Soundfile library is not available."
        = PyError.soundDeviceError m :=
  ⟨rfl, voice_failures_are_sound_device_errors.1 false (Except.ok ()) _ rfl⟩
